import Mathlib

/-!
Verification of the NVIDIA GPU collector (`collector/gpu_nvida.go`).

The collector talks to the NVML device-management library and to the
prometheus client library.  Both are shallowly embedded: an `NvmlLib`
value records the responses the library gives during one update call
(NVML calls are read-only queries, so one response per device index is
faithful), and prometheus descriptors / const metrics are plain records.
`gpuCollector.Update` becomes a pure function from the collector and the
library responses to the emitted samples, the log records and the
returned error, with the (unchanged) collector threaded through
explicitly so that frame properties are statable.
-/

/-- Return code of an NVML call: `success` stands for `nvml.SUCCESS`,
`err c` for any other `nvml.Return` value `c`. -/
inductive NvmlReturn where
  | success : NvmlReturn
  | err (code : Nat) : NvmlReturn
deriving DecidableEq, Repr

/-- Rendering of an NVML return code, standing for Go's `%v` formatting
of `nvml.Return` in error messages. -/
def NvmlReturn.render : NvmlReturn → String
  | .success => "SUCCESS"
  | .err c => "ERROR_" ++ Nat.repr c

/-- Counterpart of `nvml.Utilization` (fields `Gpu`, `Memory`, both `uint32`). -/
structure Utilization where
  gpu : Nat
  memory : Nat
deriving DecidableEq, Repr

/-- Counterpart of `nvml.Memory` (fields `Total`, `Free`, `Used`, all `uint64`). -/
structure Memory where
  total : Nat
  free : Nat
  used : Nat
deriving DecidableEq, Repr

/-- The responses of the NVML library during one call.  Per-device calls
are indexed by the device index: `DeviceGetHandleByIndex i` either
succeeds (yielding the handle for index `i`) or fails, and the reads that
go through that handle are recorded at the same index. -/
structure NvmlLib where
  initResult : NvmlReturn
  deviceGetCount : Nat × NvmlReturn
  deviceGetHandleByIndex : Nat → NvmlReturn
  deviceGetName : Nat → String × NvmlReturn
  deviceGetUtilizationRates : Nat → Utilization × NvmlReturn
  deviceGetTemperature : Nat → Nat × NvmlReturn
  deviceGetMemoryInfo : Nat → Memory × NvmlReturn

/-- Counterpart of `prometheus.Desc` as built by `prometheus.NewDesc`:
fully-qualified metric name, help text and variable label keys. -/
structure Desc where
  fqName : String
  help : String
  variableLabels : List String
deriving DecidableEq, Repr

/-- Counterpart of `prometheus.ValueType`. -/
inductive ValueType where
  | counterValue : ValueType
  | gaugeValue : ValueType
  | untypedValue : ValueType
deriving DecidableEq, Repr

/-- Counterpart of the metric built by `prometheus.MustNewConstMetric`.
The value field keeps the integral NVML reading; the source converts it
with `float64(·)`, which is injective on every integer value the claims
mention (in particular the constant `1` of the info metric), so nothing
is lost by staying in `Nat`. -/
structure ConstMetric where
  desc : Desc
  valueType : ValueType
  value : Nat
  labelValues : List String
deriving DecidableEq, Repr

/-- Counterpart of `prometheus.MustNewConstMetric`. -/
def MustNewConstMetric (desc : Desc) (valueType : ValueType) (value : Nat)
    (labelValues : List String) : ConstMetric :=
  { desc := desc, valueType := valueType, value := value, labelValues := labelValues }

/-- Log level of a `slog` record used by this collector. -/
inductive LogLevel where
  | warn : LogLevel
  | error : LogLevel
deriving DecidableEq, Repr

/-- One structured log record: level, message, and the `gpu_index`
key-value when the call site passes one. -/
structure LogEntry where
  level : LogLevel
  msg : String
  gpuIndex : Option Nat
deriving DecidableEq, Repr

/-- Counterpart of `prometheus.BuildFQName`: joins the non-empty parts
with underscores; an empty metric name yields the empty string. -/
def BuildFQName (ns subsystem name : String) : String :=
  if name = "" then ""
  else if ns ≠ "" ∧ subsystem ≠ "" then ns ++ "_" ++ subsystem ++ "_" ++ name
  else if ns ≠ "" then ns ++ "_" ++ name
  else if subsystem ≠ "" then subsystem ++ "_" ++ name
  else name

/-- The `gpuCollectorSubsystem` constant of the source. -/
def gpuCollectorSubsystem : String := "gpu"

/-- The `gpuCollector` struct: the logger reference (an abstract handle;
log output is modelled as an explicit result of `Update`) and the six
descriptors built at construction. -/
structure GpuCollector where
  logger : Nat
  gpuUtilizationDesc : Desc
  gpuTemperatureDesc : Desc
  gpuMemoryTotalDesc : Desc
  gpuMemoryUsedDesc : Desc
  gpuMemoryFreeDesc : Desc
  gpuInfoDesc : Desc
deriving DecidableEq, Repr

/-- The composite literal `&gpuCollector{...}` of `NewGPUCollector`:
the six descriptors exactly as the source builds them.  `ns` is the
exporter-wide `namespace` constant, which lives in the collector package
outside this file; it stays a parameter. -/
def mkGpuCollector (ns : String) (logger : Nat) : GpuCollector :=
  { logger := logger
    gpuUtilizationDesc :=
      { fqName := BuildFQName ns gpuCollectorSubsystem "utilisation_percentage"
        help := "GPU utilisation in percent."
        variableLabels := ["gpu_index", "gpu_name"] }
    gpuTemperatureDesc :=
      { fqName := BuildFQName ns gpuCollectorSubsystem "temperature_celsius"
        help := "GPU temperature in Celsius."
        variableLabels := ["gpu_index", "gpu_name"] }
    gpuMemoryTotalDesc :=
      { fqName := BuildFQName ns gpuCollectorSubsystem "memory_total_bytes"
        help := "Total GPU memory in bytes."
        variableLabels := ["gpu_index", "gpu_name"] }
    gpuMemoryUsedDesc :=
      { fqName := BuildFQName ns gpuCollectorSubsystem "memory_used_bytes"
        help := "Used GPU memory in bytes."
        variableLabels := ["gpu_index", "gpu_name"] }
    gpuMemoryFreeDesc :=
      { fqName := BuildFQName ns gpuCollectorSubsystem "memory_free_bytes"
        help := "Free GPU memory in bytes."
        variableLabels := ["gpu_index", "gpu_name"] }
    gpuInfoDesc :=
      { fqName := BuildFQName ns gpuCollectorSubsystem "info"
        help := "Static GPU information (e.g. index and name)."
        variableLabels := ["gpu_index", "gpu_name"] } }

/-- `NewGPUCollector`: initialise NVML; on failure return the
initialisation error, otherwise the collector with its six descriptors. -/
def NewGPUCollector (lib : NvmlLib) (ns : String) (logger : Nat) :
    Except String GpuCollector :=
  if lib.initResult ≠ .success then
    .error ("could not initialise NVML: " ++ lib.initResult.render)
  else
    .ok (mkGpuCollector ns logger)

/-- The name used for device `i`: the result of `device.GetName()`, or
the literal `"unknown"` when that call fails. -/
def deviceName (lib : NvmlLib) (i : Nat) : String :=
  if (lib.deviceGetName i).2 ≠ .success then "unknown" else (lib.deviceGetName i).1

/-- The warning logged by the `device.GetName()` step (empty when the
call succeeds). -/
def nameLog (lib : NvmlLib) (i : Nat) : List LogEntry :=
  if (lib.deviceGetName i).2 ≠ .success then
    [{ level := .warn, msg := "failed to get GPU name", gpuIndex := some i }]
  else []

/-- The body of `Update`'s loop for one device index `i`: the samples
sent on the channel and the log records written while processing this
device, in order.  Mirrors the source: handle failure skips the device;
name failure substitutes `"unknown"`; utilization, temperature or
memory-info failure skips the rest of the device; otherwise the six
const metrics are emitted. -/
def collectDevice (g : GpuCollector) (lib : NvmlLib) (i : Nat) :
    List ConstMetric × List LogEntry :=
  if lib.deviceGetHandleByIndex i ≠ .success then
    ([], [{ level := .warn, msg := "failed to get handle for GPU device", gpuIndex := some i }])
  else
    let name := deviceName lib i
    if (lib.deviceGetUtilizationRates i).2 ≠ .success then
      ([], nameLog lib i ++
        [{ level := .warn, msg := "failed to get GPU utilization", gpuIndex := some i }])
    else
      let util := (lib.deviceGetUtilizationRates i).1
      if (lib.deviceGetTemperature i).2 ≠ .success then
        ([], nameLog lib i ++
          [{ level := .warn, msg := "failed to get GPU temperature", gpuIndex := some i }])
      else
        let temp := (lib.deviceGetTemperature i).1
        if (lib.deviceGetMemoryInfo i).2 ≠ .success then
          ([], nameLog lib i ++
            [{ level := .warn, msg := "failed to get GPU memory info", gpuIndex := some i }])
        else
          let mem := (lib.deviceGetMemoryInfo i).1
          let gpuIndex := Nat.repr i
          ([ MustNewConstMetric g.gpuUtilizationDesc .gaugeValue util.gpu [gpuIndex, name],
             MustNewConstMetric g.gpuTemperatureDesc .gaugeValue temp [gpuIndex, name],
             MustNewConstMetric g.gpuMemoryTotalDesc .gaugeValue mem.total [gpuIndex, name],
             MustNewConstMetric g.gpuMemoryUsedDesc .gaugeValue mem.used [gpuIndex, name],
             MustNewConstMetric g.gpuMemoryFreeDesc .gaugeValue mem.free [gpuIndex, name],
             MustNewConstMetric g.gpuInfoDesc .gaugeValue 1 [gpuIndex, name] ],
           nameLog lib i)

/-- Everything one call of `Update` does: the (unchanged) collector, the
samples sent to the channel in order, the log records in order, and the
returned value. -/
structure UpdateResult where
  collector : GpuCollector
  samples : List ConstMetric
  logs : List LogEntry
  ret : Except String Unit
deriving Repr

/-- `gpuCollector.Update`: query the device count (failure or a zero
count abort the call with an error and no samples), then run the
per-device loop over indices `0 .. count-1` in order. -/
def GpuCollector.Update (g : GpuCollector) (lib : NvmlLib) : UpdateResult :=
  if lib.deviceGetCount.2 ≠ .success then
    { collector := g
      samples := []
      logs := [{ level := .error, msg := "failed to get GPU count", gpuIndex := none }]
      ret := .error ("could not retrieve GPU count: " ++ lib.deviceGetCount.2.render) }
  else if lib.deviceGetCount.1 = 0 then
    { collector := g
      samples := []
      logs := []
      ret := .error "no NVIDIA GPUs found" }
  else
    { collector := g
      samples := (List.range lib.deviceGetCount.1).flatMap fun i => (collectDevice g lib i).1
      logs := (List.range lib.deviceGetCount.1).flatMap fun i => (collectDevice g lib i).2
      ret := .ok () }

/-- The samples of a list that carry the decimal rendering of `i` as
their `gpu_index` label value (the first label value). -/
def samplesForIndex (ms : List ConstMetric) (i : Nat) : List ConstMetric :=
  ms.filter fun m => decide (m.labelValues.head? = some (Nat.repr i))

/-!
Decimal rendering.  `strconv.Itoa i` is embedded as `Nat.repr i`; the
claims about `gpu_index` label values need that this rendering is
injective, which is established here by reading the digit string back.
-/

/-- Reads a decimal digit string back into the number it denotes. -/
def decimalValue (cs : List Char) : Nat :=
  cs.foldl (fun acc c => acc * 10 + (c.toNat - '0'.toNat)) 0

theorem toDigitsCore_append (fuel n : Nat) (ds : List Char) :
    Nat.toDigitsCore 10 fuel n ds = Nat.toDigitsCore 10 fuel n [] ++ ds := by
  induction fuel generalizing n ds with
  | zero => simp [Nat.toDigitsCore]
  | succ fuel ih =>
    simp only [Nat.toDigitsCore]
    split
    · simp
    · rw [ih (n / 10) (Nat.digitChar (n % 10) :: ds), ih (n / 10) [Nat.digitChar (n % 10)]]
      simp [List.append_assoc]

theorem toDigitsCore_fuel (f₁ f₂ n : Nat) (ds : List Char)
    (h₁ : n < f₁) (h₂ : n < f₂) :
    Nat.toDigitsCore 10 f₁ n ds = Nat.toDigitsCore 10 f₂ n ds := by
  induction n using Nat.strong_induction_on generalizing f₁ f₂ ds with
  | _ n ih =>
    cases f₁ with
    | zero => exact absurd h₁ (Nat.not_lt_zero n)
    | succ f₁ =>
      cases f₂ with
      | zero => exact absurd h₂ (Nat.not_lt_zero n)
      | succ f₂ =>
        simp only [Nat.toDigitsCore]
        split
        · rfl
        · exact ih (n / 10) (by omega) f₁ f₂
            (Nat.digitChar (n % 10) :: ds) (by omega) (by omega)

theorem digitChar_toNat (n : Nat) (h : n < 10) :
    (Nat.digitChar n).toNat - '0'.toNat = n := by
  interval_cases n <;> rfl

theorem decimalValue_toDigitsCore (n : Nat) :
    decimalValue (Nat.toDigitsCore 10 (n + 1) n []) = n := by
  induction n using Nat.strong_induction_on with
  | _ n ih =>
    simp only [Nat.toDigitsCore]
    split
    · rename_i h0
      simp only [decimalValue, List.foldl]
      rw [digitChar_toNat (n % 10) (by omega)]
      omega
    · rename_i h0
      rw [toDigitsCore_append,
        toDigitsCore_fuel n (n / 10 + 1) (n / 10) [] (by omega) (by omega)]
      have hv := ih (n / 10) (by omega)
      simp only [decimalValue, List.foldl_append, List.foldl] at hv ⊢
      rw [hv, digitChar_toNat (n % 10) (by omega)]
      omega

theorem natRepr_injective : Function.Injective Nat.repr := by
  intro a b h
  have ha := decimalValue_toDigitsCore a
  have hb := decimalValue_toDigitsCore b
  have hd : Nat.toDigits 10 a = Nat.toDigits 10 b := by
    have hdata := congrArg String.data h
    simpa [Nat.repr, List.asString] using hdata
  unfold Nat.toDigits at hd
  rw [hd] at ha
  omega

theorem natRepr_ne (i j : Nat) (h : i ≠ j) : Nat.repr i ≠ Nat.repr j :=
  fun hr => h (natRepr_injective hr)

/-- A `flatMap` collapses to the block of one element when every other
element's block is empty. -/
theorem flatMap_eq_of_forall_ne {α β : Type} [DecidableEq α]
    (l : List α) (f : α → List β) (a : α)
    (hmem : a ∈ l) (hnd : l.Nodup)
    (hz : ∀ b ∈ l, b ≠ a → f b = []) :
    l.flatMap f = f a := by
  induction l with
  | nil => cases hmem
  | cons x xs ih =>
    rw [List.flatMap_cons]
    rcases List.mem_cons.mp hmem with rfl | hmem'
    · have hrest : xs.flatMap f = [] :=
        List.flatMap_eq_nil_iff.mpr fun b hb =>
          hz b (List.mem_cons_of_mem _ hb)
            (fun hba => (List.nodup_cons.mp hnd).1 (hba ▸ hb))
      rw [hrest, List.append_nil]
    · have hxa : x ≠ a := fun hxa => (List.nodup_cons.mp hnd).1 (hxa ▸ hmem')
      rw [hz x (List.mem_cons_self x xs) hxa, List.nil_append]
      exact ih hmem' (List.nodup_cons.mp hnd).2
        (fun b hb => hz b (List.mem_cons_of_mem _ hb))

/-!
Shape of one device's block of samples.
-/

theorem collectDevice_handle_fail (g : GpuCollector) (lib : NvmlLib) (i : Nat)
    (hh : lib.deviceGetHandleByIndex i ≠ .success) :
    collectDevice g lib i =
      ([], [{ level := .warn, msg := "failed to get handle for GPU device",
              gpuIndex := some i }]) := by
  simp [collectDevice, hh]

theorem collectDevice_ok (g : GpuCollector) (lib : NvmlLib) (i : Nat)
    (hh : lib.deviceGetHandleByIndex i = .success)
    (hu : (lib.deviceGetUtilizationRates i).2 = .success)
    (ht : (lib.deviceGetTemperature i).2 = .success)
    (hm : (lib.deviceGetMemoryInfo i).2 = .success) :
    collectDevice g lib i =
      ([ MustNewConstMetric g.gpuUtilizationDesc .gaugeValue
           (lib.deviceGetUtilizationRates i).1.gpu [Nat.repr i, deviceName lib i],
         MustNewConstMetric g.gpuTemperatureDesc .gaugeValue
           (lib.deviceGetTemperature i).1 [Nat.repr i, deviceName lib i],
         MustNewConstMetric g.gpuMemoryTotalDesc .gaugeValue
           (lib.deviceGetMemoryInfo i).1.total [Nat.repr i, deviceName lib i],
         MustNewConstMetric g.gpuMemoryUsedDesc .gaugeValue
           (lib.deviceGetMemoryInfo i).1.used [Nat.repr i, deviceName lib i],
         MustNewConstMetric g.gpuMemoryFreeDesc .gaugeValue
           (lib.deviceGetMemoryInfo i).1.free [Nat.repr i, deviceName lib i],
         MustNewConstMetric g.gpuInfoDesc .gaugeValue
           1 [Nat.repr i, deviceName lib i] ],
       nameLog lib i) := by
  simp [collectDevice, hh, hu, ht, hm]

theorem collectDevice_read_fail (g : GpuCollector) (lib : NvmlLib) (i : Nat)
    (hfail : (lib.deviceGetUtilizationRates i).2 ≠ .success ∨
      (lib.deviceGetTemperature i).2 ≠ .success ∨
      (lib.deviceGetMemoryInfo i).2 ≠ .success) :
    (collectDevice g lib i).1 = [] := by
  by_cases hh : lib.deviceGetHandleByIndex i ≠ .success
  · simp [collectDevice, hh]
  · rcases hfail with h | h | h
    · simp [collectDevice, hh, h]
    · by_cases hu : (lib.deviceGetUtilizationRates i).2 ≠ .success
      · simp [collectDevice, hh, hu]
      · simp [collectDevice, hh, hu, h]
    · by_cases hu : (lib.deviceGetUtilizationRates i).2 ≠ .success
      · simp [collectDevice, hh, hu]
      · by_cases ht : (lib.deviceGetTemperature i).2 ≠ .success
        · simp [collectDevice, hh, hu, ht]
        · simp [collectDevice, hh, hu, ht, h]

theorem collectDevice_label (g : GpuCollector) (lib : NvmlLib) (i : Nat) :
    ∀ m ∈ (collectDevice g lib i).1,
      m.labelValues.head? = some (Nat.repr i) := by
  intro m hm
  simp only [collectDevice] at hm
  split_ifs at hm
  · simp at hm
  · simp at hm
  · simp at hm
  · simp at hm
  · simp [MustNewConstMetric] at hm
    rcases hm with rfl | rfl | rfl | rfl | rfl | rfl <;> rfl

theorem collectDevice_desc_labels (g : GpuCollector) (lib : NvmlLib) (i : Nat) :
    ∀ m ∈ (collectDevice g lib i).1,
      m.desc ∈ [g.gpuUtilizationDesc, g.gpuTemperatureDesc, g.gpuMemoryTotalDesc,
        g.gpuMemoryUsedDesc, g.gpuMemoryFreeDesc, g.gpuInfoDesc] ∧
      m.labelValues = [Nat.repr i, deviceName lib i] := by
  intro m hm
  simp only [collectDevice] at hm
  split_ifs at hm
  · simp at hm
  · simp at hm
  · simp at hm
  · simp at hm
  · simp [MustNewConstMetric] at hm
    rcases hm with rfl | rfl | rfl | rfl | rfl | rfl <;> simp

/-- Within an update whose count query succeeded with `i < count`, the
samples labelled with index `i` are exactly device `i`'s block. -/
theorem samplesForIndex_update (g : GpuCollector) (lib : NvmlLib) (n i : Nat)
    (hc : lib.deviceGetCount = (n, .success)) (hi : i < n) :
    samplesForIndex (g.Update lib).samples i = (collectDevice g lib i).1 := by
  have h2 : lib.deviceGetCount.2 = .success := by rw [hc]
  have h1 : lib.deviceGetCount.1 = n := by rw [hc]
  have hn0 : ¬ lib.deviceGetCount.1 = 0 := by omega
  unfold GpuCollector.Update
  rw [if_neg (by simp [h2]), if_neg hn0, h1]
  unfold samplesForIndex
  rw [List.filter_flatMap]
  rw [flatMap_eq_of_forall_ne _ _ i (List.mem_range.mpr hi) (List.nodup_range n) ?_]
  · exact List.filter_eq_self.mpr fun m hm => by
      simp [collectDevice_label g lib i m hm]
  · intro j hj hji
    refine List.filter_eq_nil_iff.mpr fun m hm hpred => ?_
    have hlab := collectDevice_label g lib j m hm
    rw [hlab] at hpred
    simp at hpred
    exact natRepr_ne j i hji hpred

/-- When the count query succeeds with a non-zero count, `Update` runs
the per-device loop in index order and returns success. -/
theorem update_ok (g : GpuCollector) (lib : NvmlLib) (n : Nat)
    (hc : lib.deviceGetCount = (n, .success)) (hn : n ≠ 0) :
    g.Update lib =
      { collector := g
        samples := (List.range n).flatMap fun i => (collectDevice g lib i).1
        logs := (List.range n).flatMap fun i => (collectDevice g lib i).2
        ret := .ok () } := by
  have h2 : lib.deviceGetCount.2 = .success := by rw [hc]
  have h1 : lib.deviceGetCount.1 = n := by rw [hc]
  unfold GpuCollector.Update
  rw [if_neg (by simp [h2]), if_neg (by omega), h1]

theorem sum_map_const (l : List Nat) (c : Nat) :
    (l.map fun _ => c).sum = l.length * c := by
  induction l with
  | nil => simp
  | cons x xs ih => simp [ih, Nat.succ_mul, Nat.add_comm]

theorem sum_map_range_ite (n k c : Nat) (hk : k < n) :
    ((List.range n).map fun j => if j = k then 0 else c).sum = (n - 1) * c := by
  induction n with
  | zero => exact absurd hk (Nat.not_lt_zero k)
  | succ n ih =>
    rw [List.range_succ, List.map_append, List.sum_append]
    by_cases hkn : k = n
    · have hmap : ((List.range n).map fun j => if j = k then (0 : Nat) else c) =
          (List.range n).map fun _ => c :=
        List.map_congr_left fun a ha => by
          have han : a < n := List.mem_range.mp ha
          have hak : ¬ a = k := by omega
          simp [hak]
      rw [hmap, sum_map_const, List.length_range]
      subst hkn
      simp
    · have hk' : k < n := by omega
      rw [ih hk']
      simp only [List.map_cons, List.map_nil, List.sum_cons, List.sum_nil]
      rw [if_neg (by omega : ¬ n = k)]
      cases n with
      | zero => omega
      | succ m =>
        simp only [Nat.succ_sub_one, Nat.add_sub_cancel]
        ring

/-!
Mock libraries used to witness the claims on concrete inputs.
-/

/-- The spec's end-to-end mock: two fully readable devices, device 0 =
(name "A", util 50, temp 60, mem total 100 / used 40 / free 60),
device 1 = (name "B", util 10, temp 30, mem total 200 / used 0 /
free 200). -/
def mockLib2 : NvmlLib :=
  { initResult := .success
    deviceGetCount := (2, .success)
    deviceGetHandleByIndex := fun _ => .success
    deviceGetName := fun i => (if i = 0 then "A" else "B", .success)
    deviceGetUtilizationRates := fun i =>
      (if i = 0 then { gpu := 50, memory := 0 } else { gpu := 10, memory := 0 }, .success)
    deviceGetTemperature := fun i => (if i = 0 then 60 else 30, .success)
    deviceGetMemoryInfo := fun i =>
      (if i = 0 then { total := 100, free := 60, used := 40 }
       else { total := 200, free := 200, used := 0 }, .success) }

/-- Mock whose count query fails. -/
def mockLibCountFail : NvmlLib := { mockLib2 with deviceGetCount := (0, .err 999) }

/-- Mock reporting zero devices. -/
def mockLibZero : NvmlLib := { mockLib2 with deviceGetCount := (0, .success) }

/-- Mock where device 0 fails handle retrieval and device 1 is fully
readable. -/
def mockLibHandleFail : NvmlLib :=
  { mockLib2 with deviceGetHandleByIndex := fun i => if i = 0 then .err 1 else .success }

/-- Mock where device 0's temperature read fails and device 1 is fully
readable. -/
def mockLibTempFail : NvmlLib :=
  { mockLib2 with deviceGetTemperature := fun i =>
      if i = 0 then (0, .err 1) else (30, .success) }

/-- Mock where device 0's name read fails and every other read succeeds. -/
def mockLibNameFail : NvmlLib :=
  { mockLib2 with deviceGetName := fun i =>
      if i = 0 then ("", .err 1) else ("B", .success) }

/-- Mock whose NVML initialisation fails. -/
def mockLibInitFail : NvmlLib := { mockLib2 with initResult := .err 3 }

/-!
The claims.
-/

/-- C1: for every device whose handle, utilization, temperature and
memory reads all succeed, `Update` emits exactly six gauge samples for
that device — utilization, temperature, memory-total, memory-used,
memory-free and an info sample of value exactly 1 — each labelled with
the device's decimal index and its name; in particular, on the spec's
two-device mock, `Update` emits 12 samples whose `gpu_index` label
values are "0" for the first six and "1" for the last six. -/
theorem update_six_samples_per_readable_device
    (g : GpuCollector) (lib : NvmlLib) (n i : Nat)
    (hc : lib.deviceGetCount = (n, .success)) (hi : i < n)
    (hh : lib.deviceGetHandleByIndex i = .success)
    (hu : (lib.deviceGetUtilizationRates i).2 = .success)
    (ht : (lib.deviceGetTemperature i).2 = .success)
    (hm : (lib.deviceGetMemoryInfo i).2 = .success) :
    samplesForIndex (g.Update lib).samples i =
      [ MustNewConstMetric g.gpuUtilizationDesc .gaugeValue
          (lib.deviceGetUtilizationRates i).1.gpu [Nat.repr i, deviceName lib i],
        MustNewConstMetric g.gpuTemperatureDesc .gaugeValue
          (lib.deviceGetTemperature i).1 [Nat.repr i, deviceName lib i],
        MustNewConstMetric g.gpuMemoryTotalDesc .gaugeValue
          (lib.deviceGetMemoryInfo i).1.total [Nat.repr i, deviceName lib i],
        MustNewConstMetric g.gpuMemoryUsedDesc .gaugeValue
          (lib.deviceGetMemoryInfo i).1.used [Nat.repr i, deviceName lib i],
        MustNewConstMetric g.gpuMemoryFreeDesc .gaugeValue
          (lib.deviceGetMemoryInfo i).1.free [Nat.repr i, deviceName lib i],
        MustNewConstMetric g.gpuInfoDesc .gaugeValue
          1 [Nat.repr i, deviceName lib i] ] ∧
    ((mkGpuCollector "node" 0).Update mockLib2).samples.length = 12 ∧
    ((mkGpuCollector "node" 0).Update mockLib2).samples.map
        (fun m => m.labelValues.head?) =
      [some "0", some "0", some "0", some "0", some "0", some "0",
       some "1", some "1", some "1", some "1", some "1", some "1"] := by
  refine ⟨?_, by decide, by decide⟩
  rw [samplesForIndex_update g lib n i hc hi, collectDevice_ok g lib i hh hu ht hm]

/-- Witness for C1: device 0 of the spec's two-device mock. -/
theorem update_six_samples_per_readable_device_witness :
    samplesForIndex ((mkGpuCollector "node" 0).Update mockLib2).samples 0 =
      [ MustNewConstMetric (mkGpuCollector "node" 0).gpuUtilizationDesc .gaugeValue
          (mockLib2.deviceGetUtilizationRates 0).1.gpu [Nat.repr 0, deviceName mockLib2 0],
        MustNewConstMetric (mkGpuCollector "node" 0).gpuTemperatureDesc .gaugeValue
          (mockLib2.deviceGetTemperature 0).1 [Nat.repr 0, deviceName mockLib2 0],
        MustNewConstMetric (mkGpuCollector "node" 0).gpuMemoryTotalDesc .gaugeValue
          (mockLib2.deviceGetMemoryInfo 0).1.total [Nat.repr 0, deviceName mockLib2 0],
        MustNewConstMetric (mkGpuCollector "node" 0).gpuMemoryUsedDesc .gaugeValue
          (mockLib2.deviceGetMemoryInfo 0).1.used [Nat.repr 0, deviceName mockLib2 0],
        MustNewConstMetric (mkGpuCollector "node" 0).gpuMemoryFreeDesc .gaugeValue
          (mockLib2.deviceGetMemoryInfo 0).1.free [Nat.repr 0, deviceName mockLib2 0],
        MustNewConstMetric (mkGpuCollector "node" 0).gpuInfoDesc .gaugeValue
          1 [Nat.repr 0, deviceName mockLib2 0] ] ∧
    ((mkGpuCollector "node" 0).Update mockLib2).samples.length = 12 ∧
    ((mkGpuCollector "node" 0).Update mockLib2).samples.map
        (fun m => m.labelValues.head?) =
      [some "0", some "0", some "0", some "0", some "0", some "0",
       some "1", some "1", some "1", some "1", some "1", some "1"] :=
  update_six_samples_per_readable_device (mkGpuCollector "node" 0) mockLib2 2 0
    rfl (by decide) rfl rfl rfl rfl

/-- C2: when the device-count query fails or reports zero devices,
`Update` emits no samples and returns an error. -/
theorem update_count_failure_or_zero_devices (g : GpuCollector) (lib : NvmlLib)
    (h : lib.deviceGetCount.2 ≠ .success ∨ lib.deviceGetCount.1 = 0) :
    (g.Update lib).samples = [] ∧ ∃ e, (g.Update lib).ret = .error e := by
  rcases h with h | h
  · unfold GpuCollector.Update
    rw [if_pos h]
    exact ⟨rfl, _, rfl⟩
  · unfold GpuCollector.Update
    by_cases h2 : lib.deviceGetCount.2 ≠ .success
    · rw [if_pos h2]
      exact ⟨rfl, _, rfl⟩
    · rw [if_neg h2, if_pos h]
      exact ⟨rfl, _, rfl⟩

/-- Witness for C2: the zero-device mock and the count-failure mock. -/
theorem update_count_failure_or_zero_devices_witness :
    (((mkGpuCollector "node" 0).Update mockLibZero).samples = [] ∧
      ∃ e, ((mkGpuCollector "node" 0).Update mockLibZero).ret = .error e) ∧
    (((mkGpuCollector "node" 0).Update mockLibCountFail).samples = [] ∧
      ∃ e, ((mkGpuCollector "node" 0).Update mockLibCountFail).ret = .error e) :=
  ⟨update_count_failure_or_zero_devices _ _ (Or.inr rfl),
   update_count_failure_or_zero_devices _ _ (Or.inl (by decide))⟩

/-- C3: with `n ≥ 1` devices of which exactly one index `k` fails handle
retrieval and every other device is fully readable, `Update` emits
`(n-1)·6` samples, none labelled with index `k`, and returns success. -/
theorem update_single_handle_failure (g : GpuCollector) (lib : NvmlLib) (n k : Nat)
    (hc : lib.deviceGetCount = (n, .success)) (hn : 1 ≤ n) (hk : k < n)
    (hkfail : lib.deviceGetHandleByIndex k ≠ .success)
    (hok : ∀ j, j < n → j ≠ k →
      lib.deviceGetHandleByIndex j = .success ∧
      (lib.deviceGetUtilizationRates j).2 = .success ∧
      (lib.deviceGetTemperature j).2 = .success ∧
      (lib.deviceGetMemoryInfo j).2 = .success) :
    (g.Update lib).samples.length = (n - 1) * 6 ∧
    samplesForIndex (g.Update lib).samples k = [] ∧
    (g.Update lib).ret = .ok () := by
  have hup := update_ok g lib n hc (by omega)
  refine ⟨?_, ?_, ?_⟩
  · simp only [hup]
    rw [List.length_flatMap]
    have hcong : (List.range n).map (List.length ∘ fun i => (collectDevice g lib i).1) =
        (List.range n).map fun j => if j = k then 0 else 6 := by
      refine List.map_congr_left fun j hj => ?_
      by_cases hjk : j = k
      · subst hjk
        simp [Function.comp, collectDevice_handle_fail g lib j hkfail]
      · obtain ⟨hhj, huj, htj, hmj⟩ := hok j (List.mem_range.mp hj) hjk
        simp [Function.comp, collectDevice_ok g lib j hhj huj htj hmj, hjk]
    rw [hcong, sum_map_range_ite n k 6 hk]
  · rw [samplesForIndex_update g lib n k hc hk, collectDevice_handle_fail g lib k hkfail]
  · simp only [hup]

/-- Witness for C3: the two-device mock whose device 0 fails handle
retrieval. -/
theorem update_single_handle_failure_witness :
    ((mkGpuCollector "node" 0).Update mockLibHandleFail).samples.length = (2 - 1) * 6 ∧
    samplesForIndex ((mkGpuCollector "node" 0).Update mockLibHandleFail).samples 0 = [] ∧
    ((mkGpuCollector "node" 0).Update mockLibHandleFail).ret = .ok () :=
  update_single_handle_failure (mkGpuCollector "node" 0) mockLibHandleFail 2 0
    rfl (by decide) (by decide) (by decide)
    (by
      intro j hj hj0
      interval_cases j
      · exact absurd rfl hj0
      · exact ⟨rfl, rfl, rfl, rfl⟩)

/-- C4: a device whose utilization, temperature or memory-info read
fails after a successful handle retrieval contributes no samples at all,
and `Update` continues with the other devices and returns success. -/
theorem update_read_failure_skips_whole_device
    (g : GpuCollector) (lib : NvmlLib) (n i : Nat)
    (hc : lib.deviceGetCount = (n, .success)) (hi : i < n)
    (_hh : lib.deviceGetHandleByIndex i = .success)
    (hfail : (lib.deviceGetUtilizationRates i).2 ≠ .success ∨
      (lib.deviceGetTemperature i).2 ≠ .success ∨
      (lib.deviceGetMemoryInfo i).2 ≠ .success) :
    samplesForIndex (g.Update lib).samples i = [] ∧
    (g.Update lib).ret = .ok () ∧
    ∀ j, j < n → j ≠ i →
      samplesForIndex (g.Update lib).samples j = (collectDevice g lib j).1 := by
  refine ⟨?_, ?_, ?_⟩
  · rw [samplesForIndex_update g lib n i hc hi, collectDevice_read_fail g lib i hfail]
  · simp only [update_ok g lib n hc (by omega)]
  · intro j hj hji
    exact samplesForIndex_update g lib n j hc hj

/-- Witness for C4: the mock whose device 0 fails the temperature read;
device 1 still contributes its block. -/
theorem update_read_failure_skips_whole_device_witness :
    samplesForIndex ((mkGpuCollector "node" 0).Update mockLibTempFail).samples 0 = [] ∧
    ((mkGpuCollector "node" 0).Update mockLibTempFail).ret = .ok () ∧
    samplesForIndex ((mkGpuCollector "node" 0).Update mockLibTempFail).samples 1 =
      (collectDevice (mkGpuCollector "node" 0) mockLibTempFail 1).1 :=
  ⟨(update_read_failure_skips_whole_device (mkGpuCollector "node" 0) mockLibTempFail 2 0
      rfl (by decide) rfl (Or.inr (Or.inl (by decide)))).1,
   (update_read_failure_skips_whole_device (mkGpuCollector "node" 0) mockLibTempFail 2 0
      rfl (by decide) rfl (Or.inr (Or.inl (by decide)))).2.1,
   (update_read_failure_skips_whole_device (mkGpuCollector "node" 0) mockLibTempFail 2 0
      rfl (by decide) rfl (Or.inr (Or.inl (by decide)))).2.2 1 (by decide) (by decide)⟩

/-- C5: a device whose name read fails but whose handle, utilization,
temperature and memory reads succeed still contributes its six samples,
each carrying the literal "unknown" as `gpu_name` label value. -/
theorem update_name_failure_uses_unknown
    (g : GpuCollector) (lib : NvmlLib) (n i : Nat)
    (hc : lib.deviceGetCount = (n, .success)) (hi : i < n)
    (hh : lib.deviceGetHandleByIndex i = .success)
    (hname : (lib.deviceGetName i).2 ≠ .success)
    (hu : (lib.deviceGetUtilizationRates i).2 = .success)
    (ht : (lib.deviceGetTemperature i).2 = .success)
    (hm : (lib.deviceGetMemoryInfo i).2 = .success) :
    samplesForIndex (g.Update lib).samples i =
      [ MustNewConstMetric g.gpuUtilizationDesc .gaugeValue
          (lib.deviceGetUtilizationRates i).1.gpu [Nat.repr i, "unknown"],
        MustNewConstMetric g.gpuTemperatureDesc .gaugeValue
          (lib.deviceGetTemperature i).1 [Nat.repr i, "unknown"],
        MustNewConstMetric g.gpuMemoryTotalDesc .gaugeValue
          (lib.deviceGetMemoryInfo i).1.total [Nat.repr i, "unknown"],
        MustNewConstMetric g.gpuMemoryUsedDesc .gaugeValue
          (lib.deviceGetMemoryInfo i).1.used [Nat.repr i, "unknown"],
        MustNewConstMetric g.gpuMemoryFreeDesc .gaugeValue
          (lib.deviceGetMemoryInfo i).1.free [Nat.repr i, "unknown"],
        MustNewConstMetric g.gpuInfoDesc .gaugeValue
          1 [Nat.repr i, "unknown"] ] := by
  have hdn : deviceName lib i = "unknown" := by simp [deviceName, hname]
  rw [samplesForIndex_update g lib n i hc hi, collectDevice_ok g lib i hh hu ht hm, hdn]

/-- Witness for C5: device 0 of the mock whose name read fails. -/
theorem update_name_failure_uses_unknown_witness :
    samplesForIndex ((mkGpuCollector "node" 0).Update mockLibNameFail).samples 0 =
      [ MustNewConstMetric (mkGpuCollector "node" 0).gpuUtilizationDesc .gaugeValue
          (mockLibNameFail.deviceGetUtilizationRates 0).1.gpu [Nat.repr 0, "unknown"],
        MustNewConstMetric (mkGpuCollector "node" 0).gpuTemperatureDesc .gaugeValue
          (mockLibNameFail.deviceGetTemperature 0).1 [Nat.repr 0, "unknown"],
        MustNewConstMetric (mkGpuCollector "node" 0).gpuMemoryTotalDesc .gaugeValue
          (mockLibNameFail.deviceGetMemoryInfo 0).1.total [Nat.repr 0, "unknown"],
        MustNewConstMetric (mkGpuCollector "node" 0).gpuMemoryUsedDesc .gaugeValue
          (mockLibNameFail.deviceGetMemoryInfo 0).1.used [Nat.repr 0, "unknown"],
        MustNewConstMetric (mkGpuCollector "node" 0).gpuMemoryFreeDesc .gaugeValue
          (mockLibNameFail.deviceGetMemoryInfo 0).1.free [Nat.repr 0, "unknown"],
        MustNewConstMetric (mkGpuCollector "node" 0).gpuInfoDesc .gaugeValue
          1 [Nat.repr 0, "unknown"] ] :=
  update_name_failure_uses_unknown (mkGpuCollector "node" 0) mockLibNameFail 2 0
    rfl (by decide) rfl (by decide) rfl rfl rfl

/-- Joining the namespace, the gpu subsystem and a non-empty metric
name with `BuildFQName`. -/
theorem buildFQName_gpu (ns name tail : String) (hns : ns ≠ "") (hname : name ≠ "")
    (htail : "_" ++ ("gpu" ++ ("_" ++ name)) = tail) :
    BuildFQName ns gpuCollectorSubsystem name = ns ++ tail := by
  unfold BuildFQName gpuCollectorSubsystem
  rw [if_neg hname, if_pos ⟨hns, by decide⟩]
  simp only [String.append_assoc]
  rw [htail]

/-- C6: for a non-empty namespace the six metric names are exactly
`<ns>_gpu_utilisation_percentage`, `<ns>_gpu_temperature_celsius`,
`<ns>_gpu_memory_total_bytes`, `<ns>_gpu_memory_used_bytes`,
`<ns>_gpu_memory_free_bytes` and `<ns>_gpu_info`, and every sample
`Update` emits carries exactly the label keys `gpu_index` and
`gpu_name` (with one value for each). -/
theorem metric_names_and_label_keys (ns : String) (logger : Nat) (hns : ns ≠ "") :
    (mkGpuCollector ns logger).gpuUtilizationDesc.fqName = ns ++ "_gpu_utilisation_percentage" ∧
    (mkGpuCollector ns logger).gpuTemperatureDesc.fqName = ns ++ "_gpu_temperature_celsius" ∧
    (mkGpuCollector ns logger).gpuMemoryTotalDesc.fqName = ns ++ "_gpu_memory_total_bytes" ∧
    (mkGpuCollector ns logger).gpuMemoryUsedDesc.fqName = ns ++ "_gpu_memory_used_bytes" ∧
    (mkGpuCollector ns logger).gpuMemoryFreeDesc.fqName = ns ++ "_gpu_memory_free_bytes" ∧
    (mkGpuCollector ns logger).gpuInfoDesc.fqName = ns ++ "_gpu_info" ∧
    ∀ lib : NvmlLib, ∀ m ∈ ((mkGpuCollector ns logger).Update lib).samples,
      m.desc.variableLabels = ["gpu_index", "gpu_name"] ∧ m.labelValues.length = 2 := by
  refine ⟨?_, ?_, ?_, ?_, ?_, ?_, ?_⟩
  · exact buildFQName_gpu ns "utilisation_percentage" _ hns (by decide) rfl
  · exact buildFQName_gpu ns "temperature_celsius" _ hns (by decide) rfl
  · exact buildFQName_gpu ns "memory_total_bytes" _ hns (by decide) rfl
  · exact buildFQName_gpu ns "memory_used_bytes" _ hns (by decide) rfl
  · exact buildFQName_gpu ns "memory_free_bytes" _ hns (by decide) rfl
  · exact buildFQName_gpu ns "info" _ hns (by decide) rfl
  · intro lib m hm
    by_cases h2 : lib.deviceGetCount.2 ≠ .success
    · unfold GpuCollector.Update at hm
      rw [if_pos h2] at hm
      simp at hm
    · by_cases h0 : lib.deviceGetCount.1 = 0
      · unfold GpuCollector.Update at hm
        rw [if_neg h2, if_pos h0] at hm
        simp at hm
      · have h2' : lib.deviceGetCount.2 = .success := not_ne_iff.mp h2
        have hcc : lib.deviceGetCount = (lib.deviceGetCount.1, .success) := by
          rw [← h2']
        rw [update_ok (mkGpuCollector ns logger) lib lib.deviceGetCount.1 hcc h0] at hm
        simp only [List.mem_flatMap] at hm
        obtain ⟨j, hj, hmj⟩ := hm
        obtain ⟨hdesc, hlv⟩ :=
          collectDevice_desc_labels (mkGpuCollector ns logger) lib j m hmj
        constructor
        · simp only [List.mem_cons, List.not_mem_nil, or_false] at hdesc
          rcases hdesc with h | h | h | h | h | h <;> (rw [h]; rfl)
        · rw [hlv]
          rfl

/-- Witness for C6: the "node" namespace and the first sample emitted
on the two-device mock. -/
theorem metric_names_and_label_keys_witness :
    (mkGpuCollector "node" 0).gpuUtilizationDesc.fqName = "node" ++ "_gpu_utilisation_percentage" ∧
    (mkGpuCollector "node" 0).gpuInfoDesc.fqName = "node" ++ "_gpu_info" ∧
    (MustNewConstMetric (mkGpuCollector "node" 0).gpuUtilizationDesc .gaugeValue 50
        [Nat.repr 0, "A"]).desc.variableLabels = ["gpu_index", "gpu_name"] ∧
    (MustNewConstMetric (mkGpuCollector "node" 0).gpuUtilizationDesc .gaugeValue 50
        [Nat.repr 0, "A"]).labelValues.length = 2 := by
  have h := metric_names_and_label_keys "node" 0 (by decide)
  refine ⟨h.1, h.2.2.2.2.2.1, ?_, ?_⟩
  · exact (h.2.2.2.2.2.2 mockLib2
      (MustNewConstMetric (mkGpuCollector "node" 0).gpuUtilizationDesc .gaugeValue 50
        [Nat.repr 0, "A"]) (by decide)).1
  · exact (h.2.2.2.2.2.2 mockLib2
      (MustNewConstMetric (mkGpuCollector "node" 0).gpuUtilizationDesc .gaugeValue 50
        [Nat.repr 0, "A"]) (by decide)).2

/-- C7: construction fails with an initialisation error exactly when the
library's initialisation fails; on success it returns the collector with
the six descriptors; and the result depends only on the initialisation
outcome, so construction performs no device enumeration. -/
theorem new_gpu_collector_spec (lib lib2 : NvmlLib) (ns : String) (logger : Nat) :
    (lib.initResult ≠ .success →
      NewGPUCollector lib ns logger =
        .error ("could not initialise NVML: " ++ lib.initResult.render)) ∧
    (lib.initResult = .success →
      NewGPUCollector lib ns logger = .ok (mkGpuCollector ns logger)) ∧
    (lib.initResult = lib2.initResult →
      NewGPUCollector lib ns logger = NewGPUCollector lib2 ns logger) := by
  refine ⟨fun h => ?_, fun h => ?_, fun h => ?_⟩
  · simp [NewGPUCollector, h]
  · simp [NewGPUCollector, h]
  · simp [NewGPUCollector, h]

/-- Witness for C7: construction fails on the init-failure mock and
succeeds on the two-device mock; the init-failure mock and the
two-device mock differ only in the initialisation outcome aside. -/
theorem new_gpu_collector_spec_witness :
    NewGPUCollector mockLibInitFail "node" 0 =
      .error ("could not initialise NVML: " ++ mockLibInitFail.initResult.render) ∧
    NewGPUCollector mockLib2 "node" 0 = .ok (mkGpuCollector "node" 0) :=
  ⟨(new_gpu_collector_spec mockLibInitFail mockLibInitFail "node" 0).1 (by decide),
   (new_gpu_collector_spec mockLib2 mockLib2 "node" 0).2.1 rfl⟩

/-- C8: `Update` leaves every field of the collector unchanged — the
logger reference and the six descriptors built at construction are the
same after any call. -/
theorem update_mutates_no_collector_field (g : GpuCollector) (lib : NvmlLib) :
    (g.Update lib).collector = g := by
  unfold GpuCollector.Update
  split_ifs <;> rfl

/-- C9: samples are emitted in a fixed deterministic order — devices in
ascending index order `0 .. count-1`, and a fully readable device's six
samples in the order utilization, temperature, memory-total,
memory-used, memory-free, info. -/
theorem update_emission_order (g : GpuCollector) (lib : NvmlLib) (n : Nat)
    (hc : lib.deviceGetCount = (n, .success)) (hn : n ≠ 0) :
    (g.Update lib).samples =
      (List.range n).flatMap (fun i => (collectDevice g lib i).1) ∧
    ∀ i, lib.deviceGetHandleByIndex i = .success →
      (lib.deviceGetUtilizationRates i).2 = .success →
      (lib.deviceGetTemperature i).2 = .success →
      (lib.deviceGetMemoryInfo i).2 = .success →
      (collectDevice g lib i).1 =
        [ MustNewConstMetric g.gpuUtilizationDesc .gaugeValue
            (lib.deviceGetUtilizationRates i).1.gpu [Nat.repr i, deviceName lib i],
          MustNewConstMetric g.gpuTemperatureDesc .gaugeValue
            (lib.deviceGetTemperature i).1 [Nat.repr i, deviceName lib i],
          MustNewConstMetric g.gpuMemoryTotalDesc .gaugeValue
            (lib.deviceGetMemoryInfo i).1.total [Nat.repr i, deviceName lib i],
          MustNewConstMetric g.gpuMemoryUsedDesc .gaugeValue
            (lib.deviceGetMemoryInfo i).1.used [Nat.repr i, deviceName lib i],
          MustNewConstMetric g.gpuMemoryFreeDesc .gaugeValue
            (lib.deviceGetMemoryInfo i).1.free [Nat.repr i, deviceName lib i],
          MustNewConstMetric g.gpuInfoDesc .gaugeValue
            1 [Nat.repr i, deviceName lib i] ] := by
  constructor
  · simp only [update_ok g lib n hc hn]
  · intro i hh hu ht hm
    rw [collectDevice_ok g lib i hh hu ht hm]

/-- Witness for C9: the two-device mock, with the within-device order
instantiated at device 0. -/
theorem update_emission_order_witness :
    ((mkGpuCollector "node" 0).Update mockLib2).samples =
      (List.range 2).flatMap
        (fun i => (collectDevice (mkGpuCollector "node" 0) mockLib2 i).1) ∧
    (collectDevice (mkGpuCollector "node" 0) mockLib2 0).1 =
      [ MustNewConstMetric (mkGpuCollector "node" 0).gpuUtilizationDesc .gaugeValue
          (mockLib2.deviceGetUtilizationRates 0).1.gpu [Nat.repr 0, deviceName mockLib2 0],
        MustNewConstMetric (mkGpuCollector "node" 0).gpuTemperatureDesc .gaugeValue
          (mockLib2.deviceGetTemperature 0).1 [Nat.repr 0, deviceName mockLib2 0],
        MustNewConstMetric (mkGpuCollector "node" 0).gpuMemoryTotalDesc .gaugeValue
          (mockLib2.deviceGetMemoryInfo 0).1.total [Nat.repr 0, deviceName mockLib2 0],
        MustNewConstMetric (mkGpuCollector "node" 0).gpuMemoryUsedDesc .gaugeValue
          (mockLib2.deviceGetMemoryInfo 0).1.used [Nat.repr 0, deviceName mockLib2 0],
        MustNewConstMetric (mkGpuCollector "node" 0).gpuMemoryFreeDesc .gaugeValue
          (mockLib2.deviceGetMemoryInfo 0).1.free [Nat.repr 0, deviceName mockLib2 0],
        MustNewConstMetric (mkGpuCollector "node" 0).gpuInfoDesc .gaugeValue
          1 [Nat.repr 0, deviceName mockLib2 0] ] :=
  ⟨(update_emission_order (mkGpuCollector "node" 0) mockLib2 2 rfl (by decide)).1,
   (update_emission_order (mkGpuCollector "node" 0) mockLib2 2 rfl (by decide)).2
     0 rfl rfl rfl rfl⟩

/-- C10: `Update` is a function of the library's responses — two
libraries that answer every query identically (whatever their
initialisation outcome) yield identical update results: the same sample
sequence, log sequence and success-or-error value. -/
theorem update_deterministic (g : GpuCollector) (lib1 lib2 : NvmlLib)
    (hc : lib1.deviceGetCount = lib2.deviceGetCount)
    (hh : ∀ i, lib1.deviceGetHandleByIndex i = lib2.deviceGetHandleByIndex i)
    (hn : ∀ i, lib1.deviceGetName i = lib2.deviceGetName i)
    (hu : ∀ i, lib1.deviceGetUtilizationRates i = lib2.deviceGetUtilizationRates i)
    (ht : ∀ i, lib1.deviceGetTemperature i = lib2.deviceGetTemperature i)
    (hm : ∀ i, lib1.deviceGetMemoryInfo i = lib2.deviceGetMemoryInfo i) :
    g.Update lib1 = g.Update lib2 := by
  have Hh : lib1.deviceGetHandleByIndex = lib2.deviceGetHandleByIndex := funext hh
  have Hn : lib1.deviceGetName = lib2.deviceGetName := funext hn
  have Hu : lib1.deviceGetUtilizationRates = lib2.deviceGetUtilizationRates := funext hu
  have Ht : lib1.deviceGetTemperature = lib2.deviceGetTemperature := funext ht
  have Hm : lib1.deviceGetMemoryInfo = lib2.deviceGetMemoryInfo := funext hm
  simp only [GpuCollector.Update, collectDevice, deviceName, nameLog]
  simp only [hc, Hh, Hn, Hu, Ht, Hm]

/-- Witness for C10: the two-device mock against the init-failure mock,
which differ only in the initialisation outcome. -/
theorem update_deterministic_witness :
    (mkGpuCollector "node" 0).Update mockLib2 =
      (mkGpuCollector "node" 0).Update mockLibInitFail :=
  update_deterministic (mkGpuCollector "node" 0) mockLib2 mockLibInitFail
    rfl (fun _ => rfl) (fun _ => rfl) (fun _ => rfl) (fun _ => rfl) (fun _ => rfl)
